import Mathlib

/-!
Verification of the PDF-Dataset-Builder text-acquisition pipeline
(`src/unnamed/part_001`, the `PdfImportPreview` component).

The TypeScript source is shallowly embedded below: JavaScript strings are
Lean `String`s (code points as `Char`), promise rejections / thrown
exceptions are `Except`, the per-location / per-page fallible engine calls
(pdf.js, tesseract.js) are parameters supplied as `Except` outcomes, and
the React component state mutated by the hooks is an explicit `CompState`
record threaded through the handlers.
-/

namespace PdfDatasetBuilder

/-- The character class of JavaScript `\s` (also the set removed by
`String.prototype.trim`): whitespace and line terminators. -/
def jsIsSpace (c : Char) : Bool :=
  c = ' ' || c = '\t' || c = '\n' || c = '\r' ||
  c.toNat = 0x0B || c.toNat = 0x0C || c.toNat = 0xA0 || c.toNat = 0x1680 ||
  (0x2000 ≤ c.toNat && c.toNat ≤ 0x200A) ||
  c.toNat = 0x2028 || c.toNat = 0x2029 || c.toNat = 0x202F ||
  c.toNat = 0x205F || c.toNat = 0x3000 || c.toNat = 0xFEFF

/-- JavaScript `s.trim()`: remove leading and trailing `\s` characters. -/
def jsTrim (s : String) : String :=
  String.mk (((s.data.dropWhile jsIsSpace).reverse.dropWhile jsIsSpace).reverse)

/-- JavaScript `s.replace(/\s+$/g, '')` from `extractTextWithPdfJs`:
remove trailing whitespace only. -/
def stripTrailingWs (s : String) : String :=
  String.mk ((s.data.reverse.dropWhile jsIsSpace).reverse)

/-- JavaScript `content.split('\n')` (keeps empty fields; `''` splits to
`['']`), on the code-point list of the string. -/
def splitOnNl : List Char → List String
  | [] => [""]
  | c :: rest =>
    let r := splitOnNl rest
    if c = '\n' then "" :: r
    else
      match r with
      | [] => [String.mk [c]]
      | h :: t => (String.mk (c :: h.data)) :: t

/-- The function `splitOnNl` never returns the empty list. -/
theorem splitOnNl_ne_nil (cs : List Char) : splitOnNl cs ≠ [] := by
  induction cs with
  | nil => simp [splitOnNl]
  | cons c rest ih =>
    simp only [splitOnNl]
    cases h : splitOnNl rest with
    | nil => exact absurd h ih
    | cons x xs => split <;> simp

/-- One character of the Myanmar regex character class
`[က-႟ꧠ-꧿ꩠ-ꩿ]` from `hasMyanmarText`. -/
def isMyanmarChar (c : Char) : Bool :=
  (0x1000 ≤ c.toNat && c.toNat ≤ 0x109F) ||
  (0xA9E0 ≤ c.toNat && c.toNat ≤ 0xA9FF) ||
  (0xAA60 ≤ c.toNat && c.toNat ≤ 0xAA7F)

/-- Function `hasMyanmarText` from the source: `texts.some((text) => myanmarRegex.test(text))`. -/
def hasMyanmarText (texts : List String) : Bool :=
  texts.any (fun text => text.data.any isMyanmarChar)

/-- A `PdfRow` of the source is an object with a single key
(`{ [rowIndex.toString()]: row.trim() }`); modelled as the (key, value)
pair. -/
abbrev PdfRow := String × String

/-- Structure `PdfPageData` from the source: `{ pageNumber, content }`. -/
structure PdfPageData where
  pageNumber : Nat
  content : List PdfRow
deriving Repr, DecidableEq

/-- The expression `content.split('\n').filter(row => row.trim() !== '')`: the lines of
a page text surviving the blank-line filter. -/
def survivingLines (content : String) : List String :=
  (splitOnNl content.data).filter (fun row => jsTrim row ≠ "")

/-- The row-splitting step of the dataset formatter in `processPdfFile`:
`content.split('\n').filter(row => row.trim() !== '')` followed by
`rows.map((row, rowIndex) => ({ [rowIndex.toString()]: row.trim() }))`. -/
def formatRows (content : String) : List PdfRow :=
  (survivingLines content).enum.map (fun p => (toString p.1, jsTrim p.2))

/-- The dataset formatter in `processPdfFile`:
`pageTexts.map((content, index) => ({ pageNumber: index + 1, content: rowArray }))`. -/
def formatDataset (pageTexts : List String) : List PdfPageData :=
  pageTexts.enum.map (fun p => { pageNumber := p.1 + 1, content := formatRows p.2 })

/-- A text-content item reported by the PDF engine: `item.str` is either a
string or some other value (`typeof item.str === 'string'` fails). -/
inductive TextItem where
  | strItem (s : String)
  | nonStr
deriving Repr, DecidableEq

/-- The item-concatenation loop of `extractTextWithPdfJs`
(`text += item.str` for the string-typed items, in engine order),
written as the source's left-to-right accumulation. -/
def concatItems (acc : String) : List TextItem → String
  | [] => acc
  | .strItem s :: rest => concatItems (acc ++ s) rest
  | .nonStr :: rest => concatItems acc rest

/-- The call `text.normalize('NFC')` wrapped in the source's `try { } catch { }`:
the environment's normalizer `nfc` either yields a normalized string or
fails (`none`), in which case the un-normalized string is kept. -/
def normalizeNFC (nfc : String → Option String) (s : String) : String :=
  (nfc s).getD s

/-- The per-page body of `extractTextWithPdfJs`: concatenate string items,
strip trailing whitespace, attempt NFC normalization. -/
def extractPageText (nfc : String → Option String) (items : List TextItem) : String :=
  normalizeNFC nfc (stripTrailingWs (concatItems "" items))

/-- Function `extractTextWithPdfJs`: the page loop `for i in 1..numPages` pushing
each page's extracted text, in order. A parsed document's text layer is
given as its per-page item lists. -/
def extractTextWithPdfJs (nfc : String → Option String) :
    List (List TextItem) → List String
  | [] => []
  | items :: rest => extractPageText nfc items :: extractTextWithPdfJs nfc rest

/-- The language-path fallback loop of `runMyanmarOcrOnPdf`: walk the
candidate locations' `createWorker` outcomes in order, keeping
`lastError`; `break` on the first success; after the loop, `if (!worker)
throw` the last recorded error (`none` when no attempt was made). -/
def tryLangPaths {ε α : Type} : List (Except ε α) → Option ε → Except (Option ε) α
  | [], lastError => .error lastError
  | .ok w :: _, _ => .ok w
  | .error e :: rest, _ => tryLangPaths rest (some e)

/-- Lines 90-110 of the source: `worker = null; lastError = null;` then the
fallback loop over `langPaths`. -/
def loadOcrWorker {ε α : Type} (attempts : List (Except ε α)) : Except (Option ε) α :=
  tryLangPaths attempts none

/-- Behavior of the rendering/recognition engines on one page of the OCR
batch: whether `canvas.getContext('2d')` returns a context, whether the
`getPage`/`getViewport`/`render` calls (which sit OUTSIDE the inner
`try`) succeed, and the outcome of the inner `try` block
(`canvas.toDataURL` + `worker.recognize`, yielding `result.data.text || ''`). -/
structure OcrPage where
  contextOk : Bool
  renderOk : Bool
  recognizeResult : Except Unit String
deriving Repr

/-- The page loop of `runMyanmarOcrOnPdf` (lines 115-153), accumulating
`pageTexts`. A missing 2D context pushes `''` and continues; a failure in
`getPage`/`getViewport`/`render` is not caught by any per-page handler, so
it escapes the loop (`.error ()`); a failure inside the inner `try`
(encoding/recognition) is caught, pushes `''`, and continues; a recognized
text is NFC-normalized (failure ignored) and pushed. -/
def ocrPageLoop (nfc : String → Option String) :
    List OcrPage → List String → Except Unit (List String)
  | [], acc => .ok acc.reverse
  | p :: ps, acc =>
    if p.contextOk = false then ocrPageLoop nfc ps ("" :: acc)
    else if p.renderOk = false then .error ()
    else
      match p.recognizeResult with
      | .error _ => ocrPageLoop nfc ps ("" :: acc)
      | .ok t => ocrPageLoop nfc ps (normalizeNFC nfc t :: acc)

/-- The text the page loop records for one page, when the loop is not
aborted by a rendering failure. -/
def ocrPageResult (nfc : String → Option String) (p : OcrPage) : String :=
  if p.contextOk = false then ""
  else
    match p.recognizeResult with
    | .error _ => ""
    | .ok t => normalizeNFC nfc t

/-- Terminal errors of `runMyanmarOcrOnPdf`: the `throw new Error('Failed
to load Myanmar language data…')` carrying the last per-location error,
or an exception escaping the page loop. -/
inductive OcrError (ε : Type) where
  | ocrUnavailable (lastError : Option ε)
  | pageLoopEscaped
deriving Repr

/-- The block `try { body } finally { await worker.terminate() }` (lines 114-160):
the `finally` clause runs exactly once on each exit path of the body,
normal completion and escaping exception alike. The second component
counts `terminate` calls. -/
def tryFinallyTerminate (body : Except Unit (List String)) :
    Except Unit (List String) × Nat :=
  (body, 1)

/-- Result of one `runMyanmarOcrOnPdf` call, instrumented with whether a
worker was initialized and how many times it was terminated. -/
structure OcrRun (ε : Type) where
  result : Except (OcrError ε) (List String)
  workerInitialized : Bool
  terminateCalls : Nat

/-- Function `runMyanmarOcrOnPdf`: acquire a worker via the language-path fallback
(throwing `ocrUnavailable` if all locations fail, before any `try/finally`
exists, so no terminate happens), then run the page loop under
`try … finally worker.terminate()`. -/
def runMyanmarOcrOnPdf {ε : Type} (nfc : String → Option String)
    (langAttempts : List (Except ε Unit)) (pages : List OcrPage) : OcrRun ε :=
  match loadOcrWorker langAttempts with
  | .error lastError =>
    { result := .error (.ocrUnavailable lastError)
      workerInitialized := false
      terminateCalls := 0 }
  | .ok _ =>
    let r := tryFinallyTerminate (ocrPageLoop nfc pages [])
    { result := r.1.mapError (fun _ => .pageLoopEscaped)
      workerInitialized := true
      terminateCalls := r.2 }

/-- Structure `PdfInternalData` from the source. -/
structure PdfInternalData where
  numPages : Nat
  pageTexts : List String
  processedData : List PdfPageData
deriving Repr, DecidableEq

/-- The selected `File`'s properties that the handler inspects. -/
structure FileDesc where
  mime : String
  size : Nat
deriving Repr, DecidableEq

/-- The React state of the component, plus `callbackLog`: the record of
every dataset passed to the caller-supplied `onPdfProcessed` callback (in
order), which is the externally observable output channel. -/
structure CompState where
  file : Option FileDesc
  pdfData : Option PdfInternalData
  currentPage : Nat
  isLoading : Bool
  error : Option String
  callbackLog : List (List PdfPageData)
deriving Repr, DecidableEq

/-- The component's initial state. -/
def initialState : CompState :=
  { file := none, pdfData := none, currentPage := 1, isLoading := false
    error := none, callbackLog := [] }

/-- Function `resetState`: null out every state field and call `onPdfProcessed([])`. -/
def resetState (s : CompState) : CompState :=
  { file := none, pdfData := none, currentPage := 1, isLoading := false
    error := none, callbackLog := s.callbackLog ++ [[]] }

/-- Error messages of the source, verbatim. -/
def invalidTypeMsg : String := "Please select a valid PDF file."

/-- The size-limit rejection message. -/
def sizeLimitMsg : String :=
  "File size exceeds 20MB limit. Please select a smaller file."

/-- The advisory surfaced before OCR starts. -/
def ocrAdvisoryMsg : String :=
  "Standard text extraction failed. Running OCR for Myanmar text (may be slower)…"

/-- The terminal failure message set by the outer `catch` of `processPdfFile`. -/
def processFailMsg : String :=
  "Failed to process PDF. The file may be corrupted, image-only, or use " ++
  "unsupported fonts/encoding for Myanmar text."

/-- The per-page progress message passed to `updateStatus` (which is
`setError` in `processPdfFile`). -/
def ocrProgressMsg (i n : Nat) : String :=
  "Processing page " ++ toString i ++ " of " ++ toString n ++ " with OCR…"

/-- What the `error` state holds after the OCR page loop completed
normally over `n` pages: the advisory if the loop body never ran, else
the last progress message. -/
def ocrFinalStatus (n : Nat) : Option String :=
  if n = 0 then some ocrAdvisoryMsg else some (ocrProgressMsg n n)

/-- One page of a parsed document: its text-layer items and the
rendering/recognition engines' behavior should OCR visit it. -/
structure PdfPageBehavior where
  textItems : List TextItem
  ocr : OcrPage
deriving Repr

/-- A parsed PDF document handle, abstracted by the engine responses the
pipeline will observe: per-page behavior and the `createWorker` outcome
at each of the three candidate language-data locations. -/
structure PdfDocument (ε : Type) where
  pages : List PdfPageBehavior
  langAttempts : List (Except ε Unit)

/-- The engine's `pdf.numPages`. -/
def PdfDocument.numPages {ε : Type} (doc : PdfDocument ε) : Nat :=
  doc.pages.length

/-- The continuation of `processPdfFile` from line 204 on, which runs when
the awaited page texts are available: format the dataset, `setPdfData`,
`onPdfProcessed(dataset)`, and the `finally`'s `setIsLoading(false)`. It
applies to whatever component state is current when it runs; the source
contains no stale-run guard (no generation counter, no cancellation
check). -/
def datasetCompletion (n : Nat) (pageTexts : List String) (s : CompState) : CompState :=
  let dataset := formatDataset pageTexts
  { s with
    pdfData := some { numPages := n, pageTexts := pageTexts, processedData := dataset }
    callbackLog := s.callbackLog ++ [dataset]
    isLoading := false }

/-- The rejection test of `processPdfFile`, line 196:
`!anyNonEmpty || !hasMyanmarChars` where
`anyNonEmpty = pageTexts.some((t) => t.trim() !== '')`. -/
def ocrFallbackNeeded (pageTexts : List String) : Bool :=
  !(pageTexts.any (fun t => jsTrim t ≠ "")) || !(hasMyanmarText pageTexts)

/-- The result of one `processPdfFile` run, instrumented with whether the
OCR fallback branch was entered and the OCR run's worker accounting. -/
structure RunResult where
  state : CompState
  ocrInvoked : Bool
  workerInitialized : Bool
  terminateCalls : Nat

/-- Function `processPdfFile` (lines 165-241): set loading, parse (a rejection goes
to the outer `catch`), extract the text layer, accept it iff some page is
non-blank AND Myanmar characters are present, otherwise run the OCR
fallback; on success format and publish the dataset, on any thrown error
set the terminal failure message; `finally` clear the loading flag. -/
def processPdfFile {ε : Type} (nfc : String → Option String)
    (parseResult : Except ε (PdfDocument ε)) (s : CompState) : RunResult :=
  let s0 : CompState := { s with isLoading := true, error := none }
  match parseResult with
  | .error _ =>
    { state := { s0 with error := some processFailMsg, isLoading := false }
      ocrInvoked := false, workerInitialized := false, terminateCalls := 0 }
  | .ok doc =>
    let pageTexts := extractTextWithPdfJs nfc (doc.pages.map PdfPageBehavior.textItems)
    if ocrFallbackNeeded pageTexts then
      let s1 : CompState := { s0 with error := some ocrAdvisoryMsg }
      let run := runMyanmarOcrOnPdf nfc doc.langAttempts (doc.pages.map PdfPageBehavior.ocr)
      match run.result with
      | .error _ =>
        { state := { s1 with error := some processFailMsg, isLoading := false }
          ocrInvoked := true, workerInitialized := run.workerInitialized
          terminateCalls := run.terminateCalls }
      | .ok ocrTexts =>
        let s2 : CompState := { s1 with error := ocrFinalStatus doc.numPages }
        { state := datasetCompletion doc.numPages ocrTexts s2
          ocrInvoked := true, workerInitialized := run.workerInitialized
          terminateCalls := run.terminateCalls }
    else
      { state := datasetCompletion doc.numPages pageTexts s0
        ocrInvoked := false, workerInitialized := false, terminateCalls := 0 }

/-- Function `handleFileChange` (lines 243-261): reset, bail out when no file is
selected, reject a non-PDF MIME type, reject a file over 20 MiB, else
record the file and run the pipeline. The boolean reports whether
`processPdfFile` (and hence the parsing collaborator) was invoked. -/
def handleFileChange {ε : Type} (nfc : String → Option String)
    (selected : Option FileDesc) (parseResult : Except ε (PdfDocument ε))
    (s : CompState) : CompState × Bool :=
  let s := resetState s
  match selected with
  | none => (s, false)
  | some f =>
    if f.mime ≠ "application/pdf" then
      ({ s with error := some invalidTypeMsg }, false)
    else if f.size > 20 * 1024 * 1024 then
      ({ s with error := some sizeLimitMsg }, false)
    else
      let s := { s with file := some f }
      ((processPdfFile nfc parseResult s).state, true)

/-- The string content of an engine text item (`item.str` when
`typeof item.str === 'string'`). -/
def TextItem.str? : TextItem → Option String
  | .strItem s => some s
  | .nonStr => none

/-- A concrete two-page document whose text layer is blank (forcing the
OCR fallback), whose worker initialization succeeds, and whose first page
fails during rendering while its second page would recognize fine. -/
def renderFailDoc : PdfDocument Unit :=
  { pages :=
      [ { textItems := [], ocr := { contextOk := true, renderOk := false, recognizeResult := .ok "hello" } }
      , { textItems := [], ocr := { contextOk := true, renderOk := true, recognizeResult := .ok "world" } } ]
    langAttempts := [.ok ()] }

/-- A concrete one-page document whose text layer holds Myanmar text, so
text-layer extraction is accepted. -/
def acceptDoc : PdfDocument Unit :=
  { pages := [ { textItems := [TextItem.strItem "က"]
                 ocr := { contextOk := true, renderOk := true, recognizeResult := .ok "z" } } ]
    langAttempts := [] }

/-- A concrete one-page document whose text layer is blank, so the OCR
fallback runs; its worker initializes and recognition yields `"mm"`. -/
def ocrDoc : PdfDocument Unit :=
  { pages := [ { textItems := []
                 ocr := { contextOk := true, renderOk := true, recognizeResult := .ok "mm" } } ]
    langAttempts := [.ok ()] }

/-! ## Theorems -/

/-- Joining distributes: `String.join` distributes over `cons`. -/
theorem join_cons (s : String) (l : List String) :
    String.join (s :: l) = s ++ String.join l := by
  simp only [String.join_eq]
  apply String.ext
  simp [String.data_append]

/-- The item-concatenation loop equals separator-free joining of the
string-typed items' contents, in order. -/
theorem concatItems_eq (acc : String) (items : List TextItem) :
    concatItems acc items = acc ++ String.join (items.filterMap TextItem.str?) := by
  induction items generalizing acc with
  | nil =>
    apply String.ext
    simp [concatItems, String.join, String.data_append]
  | cons i rest ih =>
    cases i with
    | strItem s =>
      rw [concatItems, ih]
      simp only [List.filterMap_cons, TextItem.str?, join_cons, String.append_assoc]
    | nonStr =>
      rw [concatItems, ih]
      simp only [List.filterMap_cons, TextItem.str?]

/-- Function `hasMyanmarText` in terms of its character class. -/
theorem hasMyanmarText_eq_true (texts : List String) :
    hasMyanmarText texts = true ↔ ∃ t ∈ texts, ∃ c ∈ t.data, isMyanmarChar c = true := by
  simp [hasMyanmarText, List.any_eq_true]

/-- C7: the script detector is a pure function returning true iff some
string of the input sequence contains a code point in one of the Myanmar
Unicode blocks U+1000–U+109F, U+A9E0–U+A9FF, U+AA60–U+AA7F; on every
sequence with no such code point (in particular the empty one) it
returns false. -/
theorem hasMyanmarText_iff_myanmar_codepoint (texts : List String) :
    (hasMyanmarText texts = true ↔
      ∃ t ∈ texts, ∃ c ∈ t.data,
        ((0x1000 ≤ c.toNat ∧ c.toNat ≤ 0x109F) ∨
         (0xA9E0 ≤ c.toNat ∧ c.toNat ≤ 0xA9FF) ∨
         (0xAA60 ≤ c.toNat ∧ c.toNat ≤ 0xAA7F))) ∧
    ((∀ t ∈ texts, ∀ c ∈ t.data,
        ¬((0x1000 ≤ c.toNat ∧ c.toNat ≤ 0x109F) ∨
          (0xA9E0 ≤ c.toNat ∧ c.toNat ≤ 0xA9FF) ∨
          (0xAA60 ≤ c.toNat ∧ c.toNat ≤ 0xAA7F))) →
      hasMyanmarText texts = false) ∧
    hasMyanmarText [] = false := by
  refine ⟨?_, ?_, rfl⟩
  · simp [hasMyanmarText, List.any_eq_true, isMyanmarChar, or_assoc]
  · intro h
    rw [← Bool.not_eq_true, hasMyanmarText_eq_true]
    rintro ⟨t, ht, c, hc, hmy⟩
    refine h t ht c hc ?_
    simpa [isMyanmarChar, or_assoc] using hmy

/-- Witness for C7 at concrete inputs: `["abc", "ကလေး"]` contains a
Myanmar code point, `["abc"]` does not. -/
theorem hasMyanmarText_iff_myanmar_codepoint_witness :
    hasMyanmarText ["abc", "ကလေး"] = true ∧ hasMyanmarText ["abc"] = false := by
  constructor
  · exact (hasMyanmarText_iff_myanmar_codepoint ["abc", "ကလေး"]).1.mpr
      ⟨"ကလေး", by simp, 'က', by simp, by decide⟩
  · exact (hasMyanmarText_iff_myanmar_codepoint ["abc"]).2.1
      (by intro t ht c hc; simp at ht; subst ht; fin_cases hc <;> decide)

/-- C3: the dataset formatter splits a page text on line breaks, discards
entries blank after trimming, trims the survivors, keys them with
contiguous zero-based decimal string keys in original order, wraps each
page with its 1-based page number, is total (an all-blank page gives an
empty row sequence), and on `"a\n\nb\n  \nc"` yields exactly
`[("0","a"), ("1","b"), ("2","c")]`. -/
theorem formatRows_spec :
    (∀ content : String,
      (formatRows content).length = (survivingLines content).length ∧
      (∀ (i : Nat) (r : String), (survivingLines content)[i]? = some r →
        (formatRows content)[i]? = some (toString i, jsTrim r)) ∧
      ((∀ row ∈ splitOnNl content.data, jsTrim row = "") → formatRows content = [])) ∧
    (∀ pageTexts : List String,
      (formatDataset pageTexts).length = pageTexts.length ∧
      ∀ (i : Nat) (t : String), pageTexts[i]? = some t →
        (formatDataset pageTexts)[i]? =
          some (PdfPageData.mk (i + 1) (formatRows t))) ∧
    formatRows "a\n\nb\n  \nc" = [("0", "a"), ("1", "b"), ("2", "c")] := by
  refine ⟨fun content => ⟨?_, ?_, ?_⟩, fun pageTexts => ⟨?_, ?_⟩, by decide⟩
  · simp [formatRows]
  · intro i r h
    simp [formatRows, List.getElem?_map, List.getElem?_enum, h]
  · intro h
    have : survivingLines content = [] := by
      simp only [survivingLines, List.filter_eq_nil_iff]
      intro row hrow
      simp [h row hrow]
    simp [formatRows, this]
  · simp [formatDataset]
  · intro i t h
    simp [formatDataset, List.getElem?_map, List.getElem?_enum, h]

/-- Witness for C3 at a concrete input: the second surviving line of
`"x\n \ny "` is keyed `"1"`, the one-page dataset wraps page number 1, and
the all-blank page `" \n\t"` yields no rows. -/
theorem formatRows_spec_witness :
    (formatRows "b\nx")[1]? = some ("1", "x") ∧
    (formatDataset ["b\nx"])[0]? =
      some (PdfPageData.mk 1 (formatRows "b\nx")) ∧
    formatRows " \n\t" = [] := by
  refine ⟨(formatRows_spec.1 "b\nx").2.1 1 "x" (by decide), ?_, ?_⟩
  · exact (formatRows_spec.2.1 ["b\nx"]).2 0 "b\nx" (by decide)
  · exact (formatRows_spec.1 " \n\t").2.2 (by decide)

/-- The fallback loop returns the first successful attempt, for any
recorded last error and any outcomes after the success. -/
theorem tryLangPaths_first_ok {ε α : Type} (pre : List (Except ε α))
    (suf : List (Except ε α)) (w : α) (lastError : Option ε)
    (h : ∀ a ∈ pre, a.isOk = false) :
    tryLangPaths (pre ++ .ok w :: suf) lastError = .ok w := by
  induction pre generalizing lastError with
  | nil => rfl
  | cons a pre ih =>
    cases a with
    | ok v =>
      have := h (.ok v) (by simp)
      simp [Except.isOk, Except.toBool] at this
    | error e =>
      exact ih (some e) (fun a ha => h a (by simp [ha]))

/-- When every attempt fails, the fallback loop returns the error recorded
from the last attempt. -/
theorem tryLangPaths_all_fail {ε α : Type} (attempts : List (Except ε α)) (e : ε)
    (h : ∀ a ∈ attempts, a.isOk = false)
    (hl : attempts.getLast? = some (.error e)) :
    ∀ lastError, tryLangPaths attempts lastError = .error (some e) := by
  induction attempts with
  | nil => simp at hl
  | cons a rest ih =>
    intro lastError
    cases a with
    | ok v =>
      have := h (.ok v) (by simp)
      simp [Except.isOk, Except.toBool] at this
    | error e' =>
      cases rest with
      | nil =>
        simp at hl
        simp [tryLangPaths, hl]
      | cons b rest' =>
        rw [List.getLast?_cons_cons] at hl
        exact ih (fun a ha => h a (by simp [ha])) hl (some e')

/-- C4: the OCR asset loader tries the candidate locations in order and
returns at the first successful worker initialization, irrespective of
anything that comes after it; only when every location fails does it
fail, carrying the last location's underlying error (and then no
initialized worker is returned). -/
theorem loadOcrWorker_spec {ε α : Type} :
    (∀ (pre suf : List (Except ε α)) (w : α),
      (∀ a ∈ pre, a.isOk = false) →
      loadOcrWorker (pre ++ .ok w :: suf) = .ok w) ∧
    (∀ (attempts : List (Except ε α)) (e : ε),
      (∀ a ∈ attempts, a.isOk = false) →
      attempts.getLast? = some (.error e) →
      loadOcrWorker attempts = .error (some e)) := by
  constructor
  · intro pre suf w h
    exact tryLangPaths_first_ok pre suf w none h
  · intro attempts e h hl
    exact tryLangPaths_all_fail attempts e h hl none

/-- Witness for C4 at concrete inputs: with the first location failing and
the second succeeding, the second's worker is returned; with all three
failing, the loader fails with the third's error. -/
theorem loadOcrWorker_spec_witness :
    loadOcrWorker [Except.error "e1", Except.ok 7, Except.error "e3"] = .ok 7 ∧
    loadOcrWorker ([Except.error "e1", Except.error "e2", Except.error "e3"] :
      List (Except String Nat)) = .error (some "e3") := by
  constructor
  · exact (loadOcrWorker_spec (ε := String) (α := Nat)).1
      [Except.error "e1"] [Except.error "e3"] 7
      (by intro a ha; simp at ha; simp [ha, Except.isOk, Except.toBool])
  · exact (loadOcrWorker_spec (ε := String) (α := Nat)).2
      [Except.error "e1", Except.error "e2", Except.error "e3"] "e3"
      (by intro a ha; simp at ha
          rcases ha with h | h | h <;> simp [h, Except.isOk, Except.toBool])
      (by simp)

/-- C5: in every OCR run whose worker initialization succeeded, the worker
is terminated exactly once — whether the page loop completes normally or
an exception escapes it — and in a run without an initialized worker no
termination happens, so the worker neither leaks nor is double-released. -/
theorem runMyanmarOcrOnPdf_terminates_once {ε : Type} (nfc : String → Option String)
    (langAttempts : List (Except ε Unit)) (pages : List OcrPage) :
    ((runMyanmarOcrOnPdf nfc langAttempts pages).workerInitialized = true →
      (runMyanmarOcrOnPdf nfc langAttempts pages).terminateCalls = 1) ∧
    ((runMyanmarOcrOnPdf nfc langAttempts pages).workerInitialized = false →
      (runMyanmarOcrOnPdf nfc langAttempts pages).terminateCalls = 0) ∧
    ((runMyanmarOcrOnPdf nfc langAttempts pages).workerInitialized = true ↔
      (loadOcrWorker langAttempts).isOk = true) := by
  cases h : loadOcrWorker langAttempts <;>
    simp [runMyanmarOcrOnPdf, h, tryFinallyTerminate, Except.isOk, Except.toBool]

/-- Witness for C5 at concrete inputs: a run whose page loop is escaped by
a rendering failure still terminates its worker exactly once, and a run
whose initialization failed never terminates a worker. -/
theorem runMyanmarOcrOnPdf_terminates_once_witness :
    (runMyanmarOcrOnPdf (fun s => some s) ([Except.ok ()] : List (Except Unit Unit))
      [OcrPage.mk true false (.ok "x")]).terminateCalls = 1 ∧
    (runMyanmarOcrOnPdf (fun s => some s) ([Except.error ()] : List (Except Unit Unit))
      []).terminateCalls = 0 := by
  constructor
  · exact (runMyanmarOcrOnPdf_terminates_once (fun s => some s) [Except.ok ()]
      [OcrPage.mk true false (.ok "x")]).1 rfl
  · exact (runMyanmarOcrOnPdf_terminates_once (fun s => some s) [Except.error ()]
      []).2.1 rfl

/-- The page loop of the text-layer extractor is the map of its per-page
body over the pages. -/
theorem extractTextWithPdfJs_eq_map (nfc : String → Option String)
    (pages : List (List TextItem)) :
    extractTextWithPdfJs nfc pages = pages.map (extractPageText nfc) := by
  induction pages with
  | nil => rfl
  | cons items rest ih => simp [extractTextWithPdfJs, ih]

/-- C8: on an N-page parsed document the text-layer extractor returns
exactly N strings; page i's string is the separator-free concatenation of
that page's string-typed item contents in engine order (non-string
content skipped), with trailing whitespace stripped and NFC normalization
applied; when the normalizer fails the un-normalized string is kept. -/
theorem extractTextWithPdfJs_spec (nfc : String → Option String)
    (pages : List (List TextItem)) :
    (extractTextWithPdfJs nfc pages).length = pages.length ∧
    (∀ (i : Nat) (items : List TextItem), pages[i]? = some items →
      (extractTextWithPdfJs nfc pages)[i]? =
        some (normalizeNFC nfc (stripTrailingWs
          (String.join (items.filterMap TextItem.str?))))) ∧
    (∀ s : String, nfc s = none → normalizeNFC nfc s = s) ∧
    (∀ s t : String, nfc s = some t → normalizeNFC nfc s = t) := by
  refine ⟨?_, ?_, ?_, ?_⟩
  · rw [extractTextWithPdfJs_eq_map]
    simp
  · intro i items h
    rw [extractTextWithPdfJs_eq_map]
    have : concatItems "" items = String.join (items.filterMap TextItem.str?) := by
      rw [concatItems_eq]
      apply String.ext
      simp [String.data_append]
    simp [List.getElem?_map, h, extractPageText, this]
  · intro s h
    simp [normalizeNFC, h]
  · intro s t h
    simp [normalizeNFC, h]

/-- Witness for C8 at a concrete input: a two-page document whose first
page holds items `"ab"`, a non-string item, and `"c  "`, under a
normalizer that maps `"abc"` to `"ABC"` and fails elsewhere. -/
theorem extractTextWithPdfJs_spec_witness :
    (extractTextWithPdfJs
        (fun s => if s = "abc" then some "ABC" else none)
        [[TextItem.strItem "ab", TextItem.nonStr, TextItem.strItem "c  "], []])[0]? =
      some "ABC" := by
  have h := (extractTextWithPdfJs_spec
      (fun s => if s = "abc" then some "ABC" else none)
      [[TextItem.strItem "ab", TextItem.nonStr, TextItem.strItem "c  "], []]).2.1 0
      [TextItem.strItem "ab", TextItem.nonStr, TextItem.strItem "c  "] (by decide)
  rw [h]
  rfl

/-- When no rendering-stage failure occurs, the OCR page loop completes
normally and records one result per page. -/
theorem ocrPageLoop_all_render_ok (nfc : String → Option String)
    (pages : List OcrPage) (acc : List String)
    (h : ∀ p ∈ pages, p.renderOk = true) :
    ocrPageLoop nfc pages acc = .ok (acc.reverse ++ pages.map (ocrPageResult nfc)) := by
  induction pages generalizing acc with
  | nil => simp [ocrPageLoop]
  | cons p ps ih =>
    have hp : p.renderOk = true := h p (by simp)
    have hps : ∀ q ∈ ps, q.renderOk = true := fun q hq => h q (by simp [hq])
    by_cases hc : p.contextOk = false
    · rw [ocrPageLoop, if_pos hc, ih ("" :: acc) hps]
      simp [ocrPageResult, hc]
    · rw [ocrPageLoop, if_neg hc, if_neg (by simp [hp])]
      cases hr : p.recognizeResult with
      | error e => simp [ih ("" :: acc) hps, ocrPageResult, hc, hr]
      | ok t => simp [ih (normalizeNFC nfc t :: acc) hps, ocrPageResult, hc, hr]

/-- C2 counterexample: in the two-page document `renderFailDoc`, the
first page fails during rendering; the claim would have the OCR batch
continue and the dataset hold two records (the first empty), but the page
loop is aborted, the whole run fails, and no dataset at all is produced. -/
theorem ocr_render_failure_aborts_batch :
    (runMyanmarOcrOnPdf (fun s => some s) renderFailDoc.langAttempts
      (renderFailDoc.pages.map PdfPageBehavior.ocr)).result.isOk = false ∧
    (processPdfFile (fun s => some s) (.ok renderFailDoc) initialState).state.pdfData = none ∧
    (processPdfFile (fun s => some s) (.ok renderFailDoc) initialState).state.error =
      some processFailMsg := by
  exact ⟨rfl, rfl, rfl⟩

/-- C2 (amended): for every page of an N-page document processed by the
OCR path, a failure during image encoding or recognition of that single
page — and likewise an unavailable 2D canvas context — is caught and
yields an empty string for that page, the batch continues to the next
page, and the resulting dataset still contains exactly N page records,
the failed page's content being an empty row sequence and all other pages
unaffected; a failure during page retrieval or rendering, by contrast, is
not caught per page and aborts the whole batch. -/
theorem ocrPageLoop_recognition_failure_isolated (nfc : String → Option String)
    (pages : List OcrPage) (h : ∀ p ∈ pages, p.renderOk = true) :
    ocrPageLoop nfc pages [] = .ok (pages.map (ocrPageResult nfc)) ∧
    (formatDataset (pages.map (ocrPageResult nfc))).length = pages.length ∧
    ∀ (i : Nat) (p : OcrPage), pages[i]? = some p →
      ((p.recognizeResult.isOk = false ∨ p.contextOk = false) →
        (formatDataset (pages.map (ocrPageResult nfc)))[i]? =
          some (PdfPageData.mk (i + 1) [])) ∧
      (∀ t : String, p.recognizeResult = .ok t → p.contextOk = true →
        (pages.map (ocrPageResult nfc))[i]? = some (normalizeNFC nfc t)) := by
  refine ⟨by simpa using ocrPageLoop_all_render_ok nfc pages [] h, ?_, ?_⟩
  · simp [formatDataset]
  · intro i p hip
    constructor
    · intro hfail
      have hres : ocrPageResult nfc p = "" := by
        rcases hfail with hf | hf
        · cases hr : p.recognizeResult with
          | error e => by_cases hc : p.contextOk = false <;> simp [ocrPageResult, hc, hr]
          | ok t => rw [hr] at hf; simp [Except.isOk, Except.toBool] at hf
        · simp [ocrPageResult, hf]
      have : (pages.map (ocrPageResult nfc))[i]? = some "" := by
        simp [List.getElem?_map, hip, hres]
      simp [formatDataset, List.getElem?_map, List.getElem?_enum, this]
      decide
    · intro t ht hc
      simp [List.getElem?_map, hip, ocrPageResult, hc, ht]

/-- Witness for the amended C2 at a concrete input: three pages — a good
one, one whose recognition fails, one without a 2D context — give a
three-record dataset whose failed pages carry empty row sequences. -/
theorem ocrPageLoop_recognition_failure_isolated_witness :
    ocrPageLoop (fun s => some s)
      [OcrPage.mk true true (.ok "x"), OcrPage.mk true true (.error ()),
       OcrPage.mk false true (.ok "y")] [] = .ok ["x", "", ""] ∧
    (formatDataset (([OcrPage.mk true true (.ok "x"), OcrPage.mk true true (.error ()),
       OcrPage.mk false true (.ok "y")]).map (ocrPageResult (fun s => some s))))[1]? =
      some (PdfPageData.mk 2 []) := by
  have h := ocrPageLoop_recognition_failure_isolated (fun s => some s)
    [OcrPage.mk true true (.ok "x"), OcrPage.mk true true (.error ()),
     OcrPage.mk false true (.ok "y")]
    (by intro p hp; fin_cases hp <;> rfl)
  refine ⟨?_, ?_⟩
  · rw [h.1]; rfl
  · exact (h.2.2 1 (OcrPage.mk true true (.error ())) (by rfl)).1 (Or.inl rfl)

/-- The rejection test is false exactly when some extracted page is
non-blank and Myanmar characters are present. -/
theorem ocrFallbackNeeded_eq_false (pageTexts : List String) :
    ocrFallbackNeeded pageTexts = false ↔
      ((∃ t ∈ pageTexts, jsTrim t ≠ "") ∧ hasMyanmarText pageTexts = true) := by
  simp [ocrFallbackNeeded, List.any_eq_true]

/-- When some extracted page is non-blank and Myanmar characters are
present, `processPdfFile` takes the acceptance branch. -/
theorem processPdfFile_ok_accept {ε : Type} (nfc : String → Option String)
    (doc : PdfDocument ε) (s : CompState)
    (hAcc : ocrFallbackNeeded
        (extractTextWithPdfJs nfc (doc.pages.map PdfPageBehavior.textItems)) = false) :
    processPdfFile nfc (.ok doc) s =
      { state := datasetCompletion doc.numPages
          (extractTextWithPdfJs nfc (doc.pages.map PdfPageBehavior.textItems))
          { s with isLoading := true, error := none }
        ocrInvoked := false, workerInitialized := false, terminateCalls := 0 } := by
  simp only [processPdfFile, hAcc]
  simp

/-- When extraction is rejected and the OCR run fails, `processPdfFile`
ends in the terminal failure state. -/
theorem processPdfFile_ok_reject_fail {ε : Type} (nfc : String → Option String)
    (doc : PdfDocument ε) (s : CompState)
    (hRej : ocrFallbackNeeded
        (extractTextWithPdfJs nfc (doc.pages.map PdfPageBehavior.textItems)) = true)
    (e : OcrError ε)
    (hres : (runMyanmarOcrOnPdf nfc doc.langAttempts (doc.pages.map PdfPageBehavior.ocr)).result =
      .error e) :
    processPdfFile nfc (.ok doc) s =
      { state := { s with isLoading := false, error := some processFailMsg }
        ocrInvoked := true
        workerInitialized :=
          (runMyanmarOcrOnPdf nfc doc.langAttempts (doc.pages.map PdfPageBehavior.ocr)).workerInitialized
        terminateCalls :=
          (runMyanmarOcrOnPdf nfc doc.langAttempts (doc.pages.map PdfPageBehavior.ocr)).terminateCalls } := by
  simp only [processPdfFile, hRej]
  simp [hres]

/-- When extraction is rejected and the OCR run succeeds, `processPdfFile`
publishes the OCR page texts. -/
theorem processPdfFile_ok_reject_ok {ε : Type} (nfc : String → Option String)
    (doc : PdfDocument ε) (s : CompState)
    (hRej : ocrFallbackNeeded
        (extractTextWithPdfJs nfc (doc.pages.map PdfPageBehavior.textItems)) = true)
    (ocrTexts : List String)
    (hres : (runMyanmarOcrOnPdf nfc doc.langAttempts (doc.pages.map PdfPageBehavior.ocr)).result =
      .ok ocrTexts) :
    processPdfFile nfc (.ok doc) s =
      { state := datasetCompletion doc.numPages ocrTexts
          { s with isLoading := true, error := ocrFinalStatus doc.numPages }
        ocrInvoked := true
        workerInitialized :=
          (runMyanmarOcrOnPdf nfc doc.langAttempts (doc.pages.map PdfPageBehavior.ocr)).workerInitialized
        terminateCalls :=
          (runMyanmarOcrOnPdf nfc doc.langAttempts (doc.pages.map PdfPageBehavior.ocr)).terminateCalls } := by
  simp only [processPdfFile, hRej]
  simp [hres]

/-- C1: for every document run, text-layer extraction is accepted — and
the OCR fallback never invoked — iff some page's extracted text is
non-blank AND the script detector reports Myanmar code points; if either
condition fails the OCR fallback is invoked, and on its success its page
texts replace the text-layer output in the published data. -/
theorem processPdfFile_ocr_iff {ε : Type} (nfc : String → Option String)
    (doc : PdfDocument ε) (s : CompState) :
    ((processPdfFile nfc (.ok doc) s).ocrInvoked = false ↔
      ((∃ t ∈ extractTextWithPdfJs nfc (doc.pages.map PdfPageBehavior.textItems),
          jsTrim t ≠ "") ∧
        hasMyanmarText (extractTextWithPdfJs nfc (doc.pages.map PdfPageBehavior.textItems)) =
          true)) ∧
    ((processPdfFile nfc (.ok doc) s).ocrInvoked = false →
      (processPdfFile nfc (.ok doc) s).state.pdfData =
        some (PdfInternalData.mk doc.numPages
          (extractTextWithPdfJs nfc (doc.pages.map PdfPageBehavior.textItems))
          (formatDataset
            (extractTextWithPdfJs nfc (doc.pages.map PdfPageBehavior.textItems))))) ∧
    (∀ ocrTexts : List String,
      (processPdfFile nfc (.ok doc) s).ocrInvoked = true →
      (runMyanmarOcrOnPdf nfc doc.langAttempts (doc.pages.map PdfPageBehavior.ocr)).result =
        .ok ocrTexts →
      (processPdfFile nfc (.ok doc) s).state.pdfData =
        some (PdfInternalData.mk doc.numPages ocrTexts (formatDataset ocrTexts))) := by
  by_cases hc : ocrFallbackNeeded
      (extractTextWithPdfJs nfc (doc.pages.map PdfPageBehavior.textItems)) = true
  · cases hres :
        (runMyanmarOcrOnPdf nfc doc.langAttempts (doc.pages.map PdfPageBehavior.ocr)).result with
    | error e =>
      rw [processPdfFile_ok_reject_fail nfc doc s hc e hres]
      refine ⟨⟨fun h => absurd h (by simp), fun hrhs => ?_⟩, fun h => absurd h (by simp),
        fun ocrTexts _ hok => ?_⟩
      · exact absurd ((ocrFallbackNeeded_eq_false _).mpr hrhs) (by simp [hc])
      · exact absurd hok (by simp)
    | ok texts2 =>
      rw [processPdfFile_ok_reject_ok nfc doc s hc texts2 hres]
      refine ⟨⟨fun h => absurd h (by simp), fun hrhs => ?_⟩, fun h => absurd h (by simp),
        fun ocrTexts _ hok => ?_⟩
      · exact absurd ((ocrFallbackNeeded_eq_false _).mpr hrhs) (by simp [hc])
      · injection hok with hok
        subst hok
        simp [datasetCompletion]
  · rw [Bool.not_eq_true] at hc
    rw [processPdfFile_ok_accept nfc doc s hc]
    refine ⟨⟨fun _ => (ocrFallbackNeeded_eq_false _).mp hc, fun _ => rfl⟩,
      fun _ => by simp [datasetCompletion], fun ocrTexts h => absurd h (by simp)⟩

/-- Witness for C1 at concrete inputs: the Myanmar-text document
`acceptDoc` is accepted and its text-layer output published; the
blank-layer document `ocrDoc` goes through OCR and the OCR text `"mm"`
replaces the text-layer output. -/
theorem processPdfFile_ocr_iff_witness :
    (processPdfFile (fun s => some s) (.ok acceptDoc) initialState).state.pdfData =
      some (PdfInternalData.mk 1
        (extractTextWithPdfJs (fun s => some s) (acceptDoc.pages.map PdfPageBehavior.textItems))
        (formatDataset (extractTextWithPdfJs (fun s => some s)
          (acceptDoc.pages.map PdfPageBehavior.textItems)))) ∧
    (processPdfFile (fun s => some s) (.ok ocrDoc) initialState).state.pdfData =
      some (PdfInternalData.mk 1 ["mm"] (formatDataset ["mm"])) := by
  constructor
  · exact (processPdfFile_ocr_iff (fun s => some s) acceptDoc initialState).2.1 rfl
  · exact (processPdfFile_ocr_iff (fun s => some s) ocrDoc initialState).2.2 ["mm"] rfl rfl

/-- C9: a selected file whose MIME type is not `application/pdf`, or whose
size exceeds 20 MiB, is rejected before the pipeline runs: an error
message is surfaced, no state beyond the reset is created, and the result
does not depend on the parsing collaborator at all. -/
theorem handleFileChange_rejects_invalid {ε : Type} (nfc : String → Option String)
    (f : FileDesc) (parseResult parseResult2 : Except ε (PdfDocument ε)) (s : CompState)
    (h : f.mime ≠ "application/pdf" ∨ f.size > 20 * 1024 * 1024) :
    (handleFileChange nfc (some f) parseResult s).2 = false ∧
    (handleFileChange nfc (some f) parseResult s).1.error.isSome = true ∧
    (handleFileChange nfc (some f) parseResult s).1.file = none ∧
    (handleFileChange nfc (some f) parseResult s).1.pdfData = none ∧
    (handleFileChange nfc (some f) parseResult s).1.isLoading = false ∧
    handleFileChange nfc (some f) parseResult s =
      handleFileChange nfc (some f) parseResult2 s := by
  by_cases hm : f.mime = "application/pdf"
  · rcases h with hmm | hs
    · exact absurd hm hmm
    · simp [handleFileChange, hm, hs, resetState]
  · simp [handleFileChange, hm, resetState]

/-- Witness for C9 at a concrete input: a `text/plain` file is rejected
with a surfaced error and without running the pipeline. -/
theorem handleFileChange_rejects_invalid_witness :
    (handleFileChange (fun s => some s) (some (FileDesc.mk "text/plain" 7))
      (.error () : Except Unit (PdfDocument Unit)) initialState).2 = false ∧
    (handleFileChange (fun s => some s) (some (FileDesc.mk "text/plain" 7))
      (.error () : Except Unit (PdfDocument Unit)) initialState).1.error.isSome = true := by
  have h := handleFileChange_rejects_invalid (fun s => some s) (FileDesc.mk "text/plain" 7)
    (.error () : Except Unit (PdfDocument Unit)) (.error ()) initialState
    (Or.inl (by decide))
  exact ⟨h.1, h.2.1⟩

/-- When every attempt fails, the fallback loop ends in an error. -/
theorem tryLangPaths_error_of_all_fail {ε α : Type} (attempts : List (Except ε α))
    (h : ∀ a ∈ attempts, a.isOk = false) :
    ∀ lastError, ∃ le, tryLangPaths attempts lastError = .error le := by
  induction attempts with
  | nil => exact fun lastError => ⟨lastError, rfl⟩
  | cons a rest ih =>
    intro lastError
    cases a with
    | ok v =>
      have := h (.ok v) (by simp)
      simp [Except.isOk, Except.toBool] at this
    | error e => exact ih (fun a ha => h a (by simp [ha])) (some e)

/-- C10: a run that fails terminally — the parsing collaborator rejects
the bytes, or extraction is rejected and every OCR resource location
fails — ends with status failed: the single failure message is surfaced,
no internal pdf data is created, loading is cleared, and the
processed-data callback was invoked only by the initial reset, with the
empty dataset. -/
theorem processing_failure_is_terminal {ε : Type} (nfc : String → Option String)
    (f : FileDesc) (parseResult : Except ε (PdfDocument ε)) (s : CompState)
    (hmime : f.mime = "application/pdf") (hsize : ¬ f.size > 20 * 1024 * 1024)
    (hfail : (∃ e, parseResult = .error e) ∨
      (∃ doc : PdfDocument ε, parseResult = .ok doc ∧
        ocrFallbackNeeded
          (extractTextWithPdfJs nfc (doc.pages.map PdfPageBehavior.textItems)) = true ∧
        ∀ a ∈ doc.langAttempts, a.isOk = false)) :
    (handleFileChange nfc (some f) parseResult s).1.error = some processFailMsg ∧
    (handleFileChange nfc (some f) parseResult s).1.pdfData = none ∧
    (handleFileChange nfc (some f) parseResult s).1.isLoading = false ∧
    (handleFileChange nfc (some f) parseResult s).1.callbackLog = s.callbackLog ++ [[]] := by
  have hstep : handleFileChange nfc (some f) parseResult s =
      ((processPdfFile nfc parseResult
        { resetState s with file := some f }).state, true) := by
    simp [handleFileChange, hmime, hsize]
  rw [hstep]
  rcases hfail with ⟨e, hpe⟩ | ⟨doc, hpd, hrej, hatt⟩
  · subst hpe
    simp [processPdfFile, resetState]
  · subst hpd
    obtain ⟨le, hlw⟩ := tryLangPaths_error_of_all_fail doc.langAttempts hatt none
    have hres : (runMyanmarOcrOnPdf nfc doc.langAttempts
        (doc.pages.map PdfPageBehavior.ocr)).result = .error (.ocrUnavailable le) := by
      simp [runMyanmarOcrOnPdf, loadOcrWorker, hlw]
    rw [processPdfFile_ok_reject_fail nfc doc _ hrej _ hres]
    simp [resetState]

/-- Witness for C10 at a concrete input: a valid-looking PDF whose parsing
fails ends failed with the failure message, no data, and only the reset's
empty callback. -/
theorem processing_failure_is_terminal_witness :
    (handleFileChange (fun s => some s) (some (FileDesc.mk "application/pdf" 9))
      (.error () : Except Unit (PdfDocument Unit)) initialState).1.error =
        some processFailMsg ∧
    (handleFileChange (fun s => some s) (some (FileDesc.mk "application/pdf" 9))
      (.error () : Except Unit (PdfDocument Unit)) initialState).1.callbackLog = [[]] := by
  have h := processing_failure_is_terminal (fun s => some s)
    (FileDesc.mk "application/pdf" 9) (.error () : Except Unit (PdfDocument Unit))
    initialState rfl (by decide) (Or.inl ⟨(), rfl⟩)
  exact ⟨h.1, by simpa using h.2.2.2⟩

/-- C6 (evidence of the missing stale-result guard): a reset empties the
state — `pdfData` cleared, callback last invoked with the empty dataset —
yet the continuation of a superseded OCR run, executing after that reset,
unconditionally stores the stale page texts and invokes the callback with
the stale dataset, so the old run's results do appear in the new state. -/
theorem stale_ocr_result_written_after_reset :
    (resetState initialState).pdfData = none ∧
    (resetState initialState).callbackLog.getLast? = some [] ∧
    (datasetCompletion 1 ["hello"] (resetState initialState)).pdfData =
      some (PdfInternalData.mk 1 ["hello"] [PdfPageData.mk 1 [("0", "hello")]]) ∧
    (datasetCompletion 1 ["hello"] (resetState initialState)).callbackLog.getLast? =
      some [PdfPageData.mk 1 [("0", "hello")]] := by
  exact ⟨rfl, rfl, by decide, by decide⟩

end PdfDatasetBuilder
